import Mathlib

/-!
# Verification of the OJ Microline thermostat client

A shallow embedding of the core logic of the `ojmicroline_thermostat`
Python library, together with theorems settling the frozen claims about
its specification.

Modelling conventions:

* Python `datetime` values are modelled at one-second resolution as the
  integer number of seconds since the epoch.  Naive datetimes are plain
  integers (their wall-clock reading); offset-aware datetimes are a pair
  of the absolute instant and the UTC offset in seconds
  (`AwareDateTime`), so that the wall-clock reading is
  `instant + offset`.  Microseconds are dropped: every comparison the
  code performs compares datetimes that carry the same microsecond
  component, so the second-resolution comparison is exact.
* Python `dict[int, ...]` objects are association lists with
  Python's insertion-order/overwrite semantics (`dictInsert`,
  `dictGet`); a missing key (`KeyError`) surfaces as `none`.
* Python code that can raise is embedded as an `Option`-returning
  function, `none` standing for a raised exception.
* Python strings that undergo string surgery (the WG4 date quirk) are
  modelled as `List Char`; `str.split(sep)`, `sep.join(...)` and
  `str.strip()` are re-implemented with Python semantics.
* Python `x or y` on integers (`None`/`0` falsy) is `pyOr`.
* `.astimezone()` converts an aware datetime to the system local zone;
  the local zone's offset is threaded as an explicit `localOffset`
  parameter (assumed constant, i.e. no DST transition in scope).
-/

/-- Python `x or d` where `x : int | None`: `None` and `0` are falsy. -/
def pyOr (x : Option Int) (d : Int) : Int :=
  match x with
  | none => d
  | some v => if v = 0 then d else v

/-- `math.ceil(x / 2)` for an integer `x` (Python true division then ceil). -/
def pyCeilHalf (x : Int) : Int := -((-x).fdiv 2)

/-- An offset-aware Python `datetime`: the absolute instant (seconds since
the epoch) and the `tzinfo` UTC offset in seconds.  The wall-clock reading
is `instant + offset`. -/
structure AwareDateTime where
  instant : Int
  offset : Int
deriving DecidableEq

/-- The wall-clock reading of an aware datetime, i.e. what `strftime`
renders with a format that does not mention the offset. -/
def AwareDateTime.wall (d : AwareDateTime) : Int := d.instant + d.offset

/- Constants from `ojmicroline_thermostat/const.py`. -/

def SENSOR_ROOM_FLOOR : Int := 1
def SENSOR_FLOOR : Int := 3
def SENSOR_ROOM : Int := 4

def REGULATION_SCHEDULE : Int := 1
def REGULATION_COMFORT : Int := 2
def REGULATION_MANUAL : Int := 3
def REGULATION_VACATION : Int := 4
def REGULATION_FROST_PROTECTION : Int := 6
def REGULATION_BOOST : Int := 8
def REGULATION_ECO : Int := 9

/- Python `dict[Int, α]` as an association list in insertion order. -/

/-- Python dict assignment `m[k] = v`: replaces in place if the key is
present, appends otherwise. -/
def dictInsert {α : Type} : List (Int × α) → Int → α → List (Int × α)
  | [], k, v => [(k, v)]
  | (k0, v0) :: t, k, v =>
      if k0 = k then (k, v) :: t else (k0, v0) :: dictInsert t k v

/-- Python dict lookup `m[k]`; `none` models a `KeyError`. -/
def dictGet {α : Type} : List (Int × α) → Int → Option α
  | [], _ => none
  | (k0, v0) :: t, k => if k0 = k then some v0 else dictGet t k

/-- `datetime.weekday()` for a naive datetime given in seconds since the
epoch (1970-01-01 was a Thursday, Python weekday 3; Monday is 0). -/
def pyWeekday (t : Int) : Int := (t.fdiv 86400 + 3) % 7

/-- `datetime(now.year, now.month, now.day)` in seconds: midnight of the
day containing `t`. -/
def pyMidnight (t : Int) : Int := 86400 * t.fdiv 86400

/-!
## Schedule model (`models/schedule.py`)
-/

/-- One event of a raw schedule document: the `Clock` string split into
hour/minute/second, the temperature, and the `Active` flag. -/
structure ScheduleDocEvent where
  ClockHour : Int
  ClockMinute : Int
  ClockSecond : Int
  Temperature : Int
  Active : Bool
deriving DecidableEq

/-- One day bucket of a raw schedule document. -/
structure ScheduleDocDay where
  WeekDayGrpNo : Int
  Events : List ScheduleDocEvent
deriving DecidableEq

/-- A raw weekly-schedule document as delivered by the WD5 API
(`data["Days"]`). -/
structure ScheduleDoc where
  Days : List ScheduleDocDay
deriving DecidableEq

/-- An event of a built schedule (`ScheduleEvent` in `schedule.py`):
a naive datetime (seconds) and a temperature. -/
structure ScheduleEvent where
  date : Int
  temperature : Int
deriving DecidableEq

/-- A built schedule (`Schedule` in `schedule.py`): a Python dict from
canonical day index to the day's event list. -/
structure Schedule where
  days : List (Int × List ScheduleEvent)
deriving DecidableEq

/-- The day-code normalization performed by `Schedule.from_json`
(`schedule.py` lines 51-56): vendor code 0 is Sunday (canonical 6),
vendor code 1 is Monday (canonical 0), any other code N maps to N - 1. -/
def normalizeDayCode (code : Int) : Int :=
  if code = 0 then 6
  else if code = 1 then 0
  else code - 1

/-- `Schedule.from_json` (`schedule.py` lines 34-84): for each day bucket
normalize the day code, keep the active events, and give each event the
date of the current week's canonical day combined with the event's clock
time.  `now` is the naive `datetime.now()` in seconds. -/
def Schedule.from_json (data : ScheduleDoc) (now : Int) : Schedule :=
  ⟨data.Days.foldl (fun result item =>
      let day := normalizeDayCode item.WeekDayGrpNo
      let events := (item.Events.filter (fun e => e.Active)).map (fun e =>
        ⟨pyMidnight now + 3600 * e.ClockHour + 60 * e.ClockMinute
            + e.ClockSecond + 86400 * (day - pyWeekday now),
         e.Temperature⟩)
      dictInsert result day events) []⟩

/-- `Schedule.get_active_temperature` (`schedule.py` lines 86-114).
`none` models a raised `KeyError` (missing day bucket) or `IndexError`
(empty yesterday bucket). -/
def Schedule.get_active_temperature (s : Schedule) (now : Int) : Option Int :=
  let current_day := pyWeekday now
  match dictGet s.days current_day with
  | none => none
  | some events =>
    let temperature := events.foldl
      (fun acc e => if e.date < now then e.temperature else acc) 0
    if temperature ≠ 0 then
      some temperature
    else
      let prev_day := if current_day = 0 then 6 else current_day - 1
      match dictGet s.days prev_day with
      | none => none
      | some prevs =>
        match prevs.getLast? with
        | none => none
        | some e => some e.temperature

/-- `Schedule.get_lowest_temperature` (`schedule.py` lines 116-135). -/
def Schedule.get_lowest_temperature (s : Schedule) : Int :=
  let temperature := s.days.foldl
    (fun acc kv => kv.2.foldl
      (fun a e =>
        match a with
        | none => some e.temperature
        | some t => if t > e.temperature then some e.temperature else a) acc)
    (none : Option Int)
  match temperature with
  | none => 0
  | some t => t

/-- A schedule whose Wednesday (canonical day 2) bucket holds a single
event at exactly the evaluation instant 540000 with temperature 2500, and
whose Tuesday bucket ends with temperature 1000. -/
def c1Schedule : Schedule :=
  ⟨[(2, [⟨540000, 2500⟩]), (1, [⟨100, 1000⟩])]⟩

/-!
## The WD5 date parser (`models/thermostat.py`, `parse_wd5_date`)

The naive input string is modelled by its wall-clock reading in seconds
(`wall`); `offset` is the time-zone offset in seconds.
-/

/-- `strftime("%H:%M", gmtime(secs))` for `secs : Nat`, returned as the
rendered hour and minute numerals: `gmtime` exposes the hour-of-day
(wrapping at 24 hours) and minute of the duration. -/
def gmtimeHM (secs : Nat) : Nat × Nat :=
  ((secs / 3600) % 24, (secs % 3600) / 60)

/-- `datetime.strptime(value, "%Y-%m-%dT%H:%M:%S%z")` on the string made
of a naive datetime rendering `wall` followed by an offset suffix of
sign `plus` and numerals `hh:mm`: produces the aware datetime with that
wall-clock reading and offset. -/
def strptimeWD5 (wall : Int) (plus : Bool) (hh mm : Nat) : AwareDateTime :=
  let off : Int := (hh * 3600 + mm * 60 : Nat)
  let off := if plus then off else -off
  ⟨wall - off, off⟩

/-- `parse_wd5_date` (`thermostat.py` lines 236-258): render the offset
as `HH:MM` via `gmtime`, pick the sign by `offset >= 0`, append and parse
as an offset-aware timestamp, then subtract `timedelta(seconds=offset)`
when `offset >= 0`, else add it. -/
def parse_wd5_date (wall : Int) (offset : Int) : AwareDateTime :=
  let hm := gmtimeHM offset.natAbs
  let parsed := strptimeWD5 wall (decide (0 ≤ offset)) hm.1 hm.2
  if 0 ≤ offset then
    ⟨parsed.instant - offset, parsed.offset⟩
  else
    ⟨parsed.instant + offset, parsed.offset⟩

/-- C5, the claim's own words as a definition: render the offset as
`HH:MM` (hour-of-day and minute of the duration `|offset|`) with sign
`+` when `offset ≥ 0` and `-` otherwise, parse the offset-aware result
(an aware datetime whose wall clock is the input and whose offset is the
rendered one), and additionally correct the value by subtracting the
offset as a duration when `offset ≥ 0` or adding it when `offset < 0`. -/
def wd5DateClaim (wall : Int) (offset : Int) : AwareDateTime :=
  let hh := (offset.natAbs / 3600) % 24
  let mm := (offset.natAbs % 3600) / 60
  let rendered : Int := (hh * 3600 + mm * 60 : Nat)
  let signed := if 0 ≤ offset then rendered else -rendered
  let parsed : AwareDateTime := ⟨wall - signed, signed⟩
  if 0 ≤ offset then
    ⟨parsed.instant - offset, parsed.offset⟩
  else
    ⟨parsed.instant + offset, parsed.offset⟩

/-!
## The WG4 date parser (`models/thermostat.py`, `parse_wg4_date`)

WG4 date strings are modelled as `List Char`.
-/

/-- Python `value.split(sep)` for one-character separators: splitting the
empty string yields `[""]`, and every separator occurrence opens a new
segment. -/
def pySplit (sep : Char) : List Char → List (List Char)
  | [] => [[]]
  | c :: t =>
    if c = sep then [] :: pySplit sep t
    else
      match pySplit sep t with
      | [] => [[c]]
      | h :: r => (c :: h) :: r

/-- Python `value.strip()`: drop whitespace from both ends. -/
def pyStrip (l : List Char) : List Char :=
  ((l.dropWhile Char.isWhitespace).reverse.dropWhile Char.isWhitespace).reverse

/-- The numeric value of one ASCII digit; `none` when not a digit. -/
def parseDigit (c : Char) : Option Int :=
  if c.isDigit then some ((c.toNat - 48 : Nat) : Int) else none

/-- Two-digit numeral. -/
def parse2 (a b : Char) : Option Int := do
  let x ← parseDigit a
  let y ← parseDigit b
  pure (10 * x + y)

/-- Four-digit numeral. -/
def parse4 (a b c d : Char) : Option Int := do
  let x ← parseDigit a
  let y ← parseDigit b
  let z ← parseDigit c
  let w ← parseDigit d
  pure (1000 * x + 100 * y + 10 * z + w)

/-- Gregorian leap year. -/
def isLeapYear (y : Int) : Bool :=
  (y % 4 == 0 && y % 100 != 0) || y % 400 == 0

/-- Number of days of month `m` of year `y`. -/
def daysInMonth (y m : Int) : Int :=
  if m = 2 then (if isLeapYear y then 29 else 28)
  else if m = 4 ∨ m = 6 ∨ m = 9 ∨ m = 11 then 30
  else 31

/-- Days since 1970-01-01 of the civil date `y-m-d` (proleptic Gregorian
calendar). -/
def daysFromCivil (y m d : Int) : Int :=
  let y2 := if m ≤ 2 then y - 1 else y
  let m2 := if m ≤ 2 then m + 12 else m
  365 * y2 + y2.fdiv 4 - y2.fdiv 100 + y2.fdiv 400
    + (153 * (m2 - 3) + 2).fdiv 5 + d - 1 - 719468

/-- Modelled from the spec: `WG4_DATETIME_FORMAT` is missing from
`const.py`; per the spec's wire-format section, Family B timestamps are
`DD/MM/YYYY HH:MM:SS +00:00`, i.e. strptime format
`%d/%m/%Y %H:%M:%S %z`.  This is `datetime.strptime` with that fixed
format: the fields are zero-padded numerals and the offset suffix is a
sign followed by `HH:MM`; out-of-range components fail (`none`). -/
def strptimeWG4 : List Char → Option AwareDateTime
  | d1 :: d2 :: '/' :: m1 :: m2 :: '/' :: y1 :: y2 :: y3 :: y4 :: ' ' ::
      h1 :: h2 :: ':' :: n1 :: n2 :: ':' :: s1 :: s2 :: ' ' ::
      sg :: o1 :: o2 :: ':' :: o3 :: o4 :: [] => do
    let d ← parse2 d1 d2
    let m ← parse2 m1 m2
    let y ← parse4 y1 y2 y3 y4
    let h ← parse2 h1 h2
    let n ← parse2 n1 n2
    let s ← parse2 s1 s2
    let oh ← parse2 o1 o2
    let om ← parse2 o3 o4
    if 1 ≤ m ∧ m ≤ 12 ∧ 1 ≤ d ∧ d ≤ daysInMonth y m
        ∧ h ≤ 23 ∧ n ≤ 59 ∧ s ≤ 59 ∧ oh ≤ 23 ∧ om ≤ 59 then
      let sign : Option Int :=
        if sg = '+' then some 1 else if sg = '-' then some (-1) else none
      match sign with
      | none => none
      | some sign =>
        let off := sign * (3600 * oh + 60 * om)
        some ⟨86400 * daysFromCivil y m d + 3600 * h + 60 * n + s - off, off⟩
    else
      none
  | _ => none

/-- The string surgery of `parse_wg4_date` (`thermostat.py` line 276):
`"+".join(value.split("+")[:2]).strip()`. -/
def wg4Fix (value : List Char) : List Char :=
  pyStrip (List.intercalate ['+'] ((pySplit '+' value).take 2))

/-- `parse_wg4_date` (`thermostat.py` lines 261-278): drop everything
after the second `+`-segment, strip, parse with the family's fixed
format, and convert to the local zone (`astimezone`, which keeps the
instant and re-labels with the local offset). -/
def parse_wg4_date (localOffset : Int) (value : List Char) :
    Option AwareDateTime :=
  (strptimeWG4 (wg4Fix value)).map (fun dt => ⟨dt.instant, localOffset⟩)

/-!
## Thermostat model (`models/thermostat.py`)
-/

/-- The unified `Thermostat` dataclass.  Fields after
`last_primary_mode_is_auto` are the optional per-family fields, which
default to `None`. -/
structure Thermostat where
  model : List Char
  serial_number : List Char
  software_version : List Char
  zone_name : List Char
  zone_id : Int
  name : List Char
  online : Bool
  heating : Bool
  regulation_mode : Int
  supported_regulation_modes : List Int
  min_temperature : Int
  max_temperature : Int
  manual_temperature : Int
  comfort_temperature : Int
  comfort_end_time : AwareDateTime
  last_primary_mode_is_auto : Bool
  thermostat_id : Option Int := none
  schedule : Option ScheduleDoc := none
  adaptive_mode : Option Bool := none
  open_window_detection : Option Bool := none
  daylight_saving_active : Option Bool := none
  sensor_mode : Option Int := none
  temperature_floor : Option Int := none
  temperature_room : Option Int := none
  boost_end_time : Option AwareDateTime := none
  vacation_mode : Option Bool := none
  vacation_begin_time : Option AwareDateTime := none
  vacation_end_time : Option AwareDateTime := none
  vacation_temperature : Option Int := none
  frost_protection_temperature : Option Int := none
  boost_temperature : Option Int := none
  temperature : Option Int := none
  set_point_temperature : Option Int := none
deriving DecidableEq

/-- The fields of a WD5-series thermostat JSON document that
`Thermostat.from_wd5_json` reads.  Date fields hold the wall-clock
seconds of the vendor's naive datetime strings. -/
structure WD5Data where
  Id : Int
  SerialNumber : List Char
  SWversion : List Char
  GroupName : List Char
  GroupId : Int
  ThermostatName : List Char
  Online : Bool
  Heating : Bool
  RegulationMode : Int
  SensorAppl : Int
  AdaptiveMode : Bool
  OpenWindow : Bool
  LastPrimaryModeIsAuto : Bool
  DaylightSavingActive : Bool
  FloorTemperature : Int
  RoomTemperature : Int
  MinSetpoint : Int
  MaxSetpoint : Int
  ComfortSetpoint : Int
  ManualModeSetpoint : Int
  FrostProtectionTemperature : Int
  BoostEndTime : Int
  ComfortEndTime : Int
  VacationEnabled : Bool
  VacationBeginDay : Int
  VacationEndDay : Int
  VacationTemperature : Int
  TimeZone : Int
  Schedule : ScheduleDoc
deriving DecidableEq

/-- `Thermostat.from_wd5_json` (`thermostat.py` lines 71-126). -/
def Thermostat.from_wd5_json (data : WD5Data) : Thermostat :=
  { thermostat_id := some data.Id
    model := ['O', 'W', 'D', '5']
    serial_number := data.SerialNumber
    software_version := data.SWversion
    zone_name := data.GroupName
    zone_id := data.GroupId
    name := data.ThermostatName
    online := data.Online
    heating := data.Heating
    regulation_mode := data.RegulationMode
    supported_regulation_modes :=
      [REGULATION_SCHEDULE, REGULATION_COMFORT, REGULATION_MANUAL,
       REGULATION_VACATION, REGULATION_FROST_PROTECTION, REGULATION_BOOST,
       REGULATION_ECO]
    sensor_mode := some data.SensorAppl
    adaptive_mode := some data.AdaptiveMode
    open_window_detection := some data.OpenWindow
    last_primary_mode_is_auto := data.LastPrimaryModeIsAuto
    daylight_saving_active := some data.DaylightSavingActive
    temperature_floor := some data.FloorTemperature
    temperature_room := some data.RoomTemperature
    min_temperature := data.MinSetpoint
    max_temperature := data.MaxSetpoint
    comfort_temperature := data.ComfortSetpoint
    manual_temperature := data.ManualModeSetpoint
    frost_protection_temperature := some data.FrostProtectionTemperature
    boost_temperature := some data.MaxSetpoint
    boost_end_time := some (parse_wd5_date data.BoostEndTime data.TimeZone)
    comfort_end_time := parse_wd5_date data.ComfortEndTime data.TimeZone
    vacation_mode := some data.VacationEnabled
    vacation_begin_time :=
      some (parse_wd5_date data.VacationBeginDay data.TimeZone)
    vacation_end_time := some (parse_wd5_date data.VacationEndDay data.TimeZone)
    vacation_temperature := some data.VacationTemperature
    schedule := some data.Schedule }

/-- The fields of a WG4-series thermostat JSON document that
`Thermostat.from_wg4_json` reads.  Date fields are raw vendor strings. -/
structure WG4Data where
  SerialNumber : List Char
  SWVersion : List Char
  GroupName : List Char
  GroupId : Int
  Room : List Char
  Online : Bool
  Heating : Bool
  RegulationMode : Int
  LastPrimaryModeIsAuto : Bool
  Temperature : Int
  SetPointTemp : Int
  MinTemp : Int
  MaxTemp : Int
  ComfortTemperature : Int
  ManualTemperature : Int
  ComfortEndTime : List Char
  VacationEnabled : Bool
  VacationBeginDay : List Char
  VacationEndDay : List Char
  VacationTemperature : Int
  TZOffset : List Char
deriving DecidableEq

/-- `Thermostat.from_wg4_json` (`thermostat.py` lines 128-177): vacation
begin/end arrive with no offset and get `" " + tz_offset` appended before
parsing; every other date field is parsed as-is.  `none` models a raised
parse error. -/
def Thermostat.from_wg4_json (localOffset : Int) (data : WG4Data) :
    Option Thermostat := do
  let comfort_end ← parse_wg4_date localOffset data.ComfortEndTime
  let vac_begin ← parse_wg4_date localOffset
    (data.VacationBeginDay ++ ' ' :: data.TZOffset)
  let vac_end ← parse_wg4_date localOffset
    (data.VacationEndDay ++ ' ' :: data.TZOffset)
  pure
    { model := ['U', 'W', 'G', '4']
      serial_number := data.SerialNumber
      software_version := data.SWVersion
      zone_name := data.GroupName
      zone_id := data.GroupId
      name := data.Room
      online := data.Online
      heating := data.Heating
      regulation_mode := data.RegulationMode
      supported_regulation_modes :=
        [REGULATION_SCHEDULE, REGULATION_COMFORT, REGULATION_MANUAL,
         REGULATION_VACATION]
      last_primary_mode_is_auto := data.LastPrimaryModeIsAuto
      temperature := some data.Temperature
      set_point_temperature := some data.SetPointTemp
      min_temperature := data.MinTemp
      max_temperature := data.MaxTemp
      comfort_temperature := data.ComfortTemperature
      manual_temperature := data.ManualTemperature
      comfort_end_time := comfort_end
      vacation_mode := some data.VacationEnabled
      vacation_begin_time := some vac_begin
      vacation_end_time := some vac_end
      vacation_temperature := some data.VacationTemperature }

/-- `Thermostat.get_target_temperature` (`thermostat.py` lines 179-207).
`none` models an exception raised by the embedded schedule evaluation;
`now` is the naive `datetime.now()` in seconds. -/
def Thermostat.get_target_temperature (t : Thermostat) (now : Int) :
    Option Int :=
  match t.set_point_temperature with
  | some v => some v
  | none =>
    if t.regulation_mode = REGULATION_SCHEDULE ∧ t.schedule.isSome then
      match t.schedule with
      | some doc => (Schedule.from_json doc now).get_active_temperature now
      | none => none
    else if t.regulation_mode = REGULATION_COMFORT then
      some t.comfort_temperature
    else if t.regulation_mode = REGULATION_MANUAL then
      some t.manual_temperature
    else if t.regulation_mode = REGULATION_VACATION then
      some (pyOr t.vacation_temperature 0)
    else if t.regulation_mode = REGULATION_FROST_PROTECTION then
      some (pyOr t.frost_protection_temperature 0)
    else if t.regulation_mode = REGULATION_BOOST then
      some (pyOr t.boost_temperature 0)
    else if t.regulation_mode = REGULATION_ECO ∧ t.schedule.isSome then
      match t.schedule with
      | some doc => some (Schedule.from_json doc now).get_lowest_temperature
      | none => none
    else
      some 0

/-- `Thermostat.get_current_temperature` (`thermostat.py` lines 209-233);
total, sensor modes are dispatched with an explicit 0 fallback. -/
def Thermostat.get_current_temperature (t : Thermostat) : Int :=
  match t.temperature with
  | some v => v
  | none =>
    if t.sensor_mode = some SENSOR_ROOM then
      pyOr t.temperature_room 0
    else if t.sensor_mode = some SENSOR_FLOOR then
      pyOr t.temperature_floor 0
    else if t.sensor_mode = some SENSOR_ROOM_FLOOR then
      pyCeilHalf (pyOr t.temperature_floor 0 + pyOr t.temperature_room 0)
    else
      0

/-- A baseline thermostat used to build concrete instances; every
optional field is unset. -/
def baseThermostat : Thermostat :=
  { model := []
    serial_number := []
    software_version := []
    zone_name := []
    zone_id := 0
    name := []
    online := true
    heating := false
    regulation_mode := 0
    supported_regulation_modes := []
    min_temperature := 0
    max_temperature := 0
    manual_temperature := 0
    comfort_temperature := 0
    comfort_end_time := ⟨0, 0⟩
    last_primary_mode_is_auto := false }

/-- A Family-A thermostat in Schedule regulation mode whose embedded
schedule document has no day buckets. -/
def c2Thermostat : Thermostat :=
  { baseThermostat with
    regulation_mode := REGULATION_SCHEDULE
    schedule := some ⟨[]⟩ }

/-- A Family-B style thermostat with a populated set-point and a
Family-A sensor pair in combined room+floor mode. -/
def c2WitnessThermostat : Thermostat :=
  { baseThermostat with
    set_point_temperature := some 2250
    sensor_mode := some SENSOR_ROOM_FLOOR
    temperature_floor := some 2000
    temperature_room := some 3000 }

/-!
## The WD5 update-body builder (`wd5.py`, `WD5API.update_regulation_mode_body`)
-/

/-- The `SetGroup` object of the WD5 update body (`wd5.py` lines
118-137).  Serialized date fields are `Option Int`: the wall-clock
seconds rendered by the family's fixed timestamp format, or `none` for
the JSON `null` marker. -/
structure SetGroupBody where
  ExcludeVacationData : Bool
  GroupId : Int
  GroupName : List Char
  BoostEndTime : Option Int
  ComfortEndTime : Option Int
  ComfortSetpoint : Int
  LastPrimaryModeIsAuto : Bool
  ManualModeSetpoint : Int
  RegulationMode : Int
  Schedule : Option ScheduleDoc
  VacationEnabled : Option Bool
  VacationBeginDay : Option Int
  VacationEndDay : Option Int
  VacationTemperature : Option Int
deriving DecidableEq

/-- `_fmt` (`wd5.py` lines 147-148): `None` serializes to the explicit
null marker, otherwise `strftime(WD5_DATETIME_FORMAT)`.  Modelled from
the spec for the missing `WD5_DATETIME_FORMAT` constant: Family A
timestamps are naive `YYYY-MM-DDTHH:MM:SS`, represented here by the
wall-clock seconds of the datetime. -/
def wd5Fmt (d : Option AwareDateTime) : Option Int :=
  d.map AwareDateTime.wall

/-- `WD5API.update_regulation_mode_body` (`wd5.py` lines 90-138).
`now` is the current UTC instant in seconds; `.astimezone()` re-labels
it with the local offset. -/
def WD5API.update_regulation_mode_body (thermostat : Thermostat)
    (regulation_mode : Int) (temperature : Option Int) (duration : Int)
    (now : Int) (localOffset : Int) : SetGroupBody :=
  let comfort_end_time : AwareDateTime :=
    if regulation_mode = REGULATION_COMFORT then
      ⟨now + 60 * duration, localOffset⟩
    else thermostat.comfort_end_time
  let comfort_temperature :=
    if regulation_mode = REGULATION_COMFORT then
      pyOr temperature thermostat.comfort_temperature
    else thermostat.comfort_temperature
  let boost_end_time : Option AwareDateTime :=
    if regulation_mode = REGULATION_BOOST then
      some ⟨now + 3600, localOffset⟩
    else thermostat.boost_end_time
  let manual_temperature :=
    if regulation_mode = REGULATION_MANUAL then
      pyOr temperature thermostat.manual_temperature
    else thermostat.manual_temperature
  { ExcludeVacationData := false
    GroupId := thermostat.zone_id
    GroupName := thermostat.zone_name
    BoostEndTime := wd5Fmt boost_end_time
    ComfortEndTime := wd5Fmt (some comfort_end_time)
    ComfortSetpoint := comfort_temperature
    LastPrimaryModeIsAuto :=
      decide (thermostat.regulation_mode = REGULATION_SCHEDULE)
    ManualModeSetpoint := manual_temperature
    RegulationMode := regulation_mode
    Schedule := thermostat.schedule
    VacationEnabled := thermostat.vacation_mode
    VacationBeginDay := wd5Fmt thermostat.vacation_begin_time
    VacationEndDay := wd5Fmt thermostat.vacation_end_time
    VacationTemperature := thermostat.vacation_temperature }

/-- A Family-A thermostat with every date field and setpoint populated,
used to exercise the update-body builder. -/
def c7Thermostat : Thermostat :=
  { baseThermostat with
    zone_id := 7
    zone_name := ['z']
    regulation_mode := REGULATION_SCHEDULE
    comfort_temperature := 2100
    manual_temperature := 1900
    comfort_end_time := ⟨1000, 3600⟩
    boost_end_time := some ⟨2000, 3600⟩
    vacation_begin_time := some ⟨3000, 3600⟩
    vacation_end_time := some ⟨4000, 3600⟩
    vacation_temperature := some 1500
    vacation_mode := some false
    schedule := some ⟨[]⟩ }

/-!
## The session orchestrator (`ojmicroline.py`, `OJMicroline`)

Only the session-bookkeeping state is modelled: the session id and the
remaining-call counter.  The vendor's reply to the login request is an
explicit parameter; the list/update requests' replies do not touch
session state and are not modelled.
-/

/-- The session state of an `OJMicroline` instance: the cached session
id and the remaining-call counter. -/
structure OJState where
  session_id : Option (List Char)
  calls_left : Int
deriving DecidableEq

/-- The initial state from the class defaults: no session id, counter
0. -/
def initOJState : OJState := ⟨none, 0⟩

/-- The vendor's reply to a login request. -/
structure LoginResponse where
  ErrorCode : Int
  SessionId : List Char
deriving DecidableEq

/-- The session-state effect of `_request` (`ojmicroline.py` line 172):
the counter is decremented by one before the call is sent, and the
decrement is never rolled back. -/
def requestSend (st : OJState) : OJState :=
  ⟨st.session_id, st.calls_left - 1⟩

/-- `OJMicroline.login` (`ojmicroline.py` lines 207-229): a no-op unless
the counter is 0 or no session id exists; otherwise send the login
request (decrementing the counter), raise an auth error on
`ErrorCode == 1` (first component `true`), else store the returned
`SessionId` and reset the counter to the fixed budget 300. -/
def OJMicroline.login (st : OJState) (resp : LoginResponse) :
    Bool × OJState :=
  if st.calls_left = 0 ∨ st.session_id = none then
    let st1 := requestSend st
    if resp.ErrorCode = 1 then (true, st1)
    else (false, ⟨some resp.SessionId, 300⟩)
  else
    (false, st)

/-- The observable data of an outbound non-login request: the session
token it carries and the counter value at the moment it is sent. -/
structure SendObs where
  token : Option (List Char)
  calls_left_at_send : Int
deriving DecidableEq

/-- `OJMicroline.get_thermostats` (`ojmicroline.py` lines 231-249),
restricted to its session effects: always call `login`, then send the
list request with the current session id.  `none` models the propagated
auth error. -/
def OJMicroline.get_thermostats (st : OJState) (resp : LoginResponse) :
    Option (OJState × SendObs) :=
  match OJMicroline.login st resp with
  | (true, _) => none
  | (false, st1) =>
    let st2 := requestSend st1
    some (st2, ⟨st1.session_id, st2.calls_left⟩)

/-- `OJMicroline.set_regulation_mode` (`ojmicroline.py` lines 251-303),
restricted to its session effects: call `login` only when no session id
exists, then send the update request.  The boolean reports whether
`login` was invoked. -/
def OJMicroline.set_regulation_mode (st : OJState) (resp : LoginResponse) :
    Option (OJState × SendObs × Bool) :=
  if st.session_id = none then
    match OJMicroline.login st resp with
    | (true, _) => none
    | (false, st1) =>
      let st2 := requestSend st1
      some (st2, ⟨st1.session_id, st2.calls_left⟩, true)
  else
    let st2 := requestSend st
    some (st2, ⟨st.session_id, st2.calls_left⟩, false)

/-!
## Concrete WG4/WD5 documents for witnesses
-/

/-- The characters of `28/01/2024 23:29:00 ` (trailing space),
the segment before the first `+` of the doubled-offset example. -/
def c6SegA : List Char :=
  ['2', '8', '/', '0', '1', '/', '2', '0', '2', '4', ' ',
   '2', '3', ':', '2', '9', ':', '0', '0', ' ']

/-- The characters of `00:00 ` (trailing space), the segment between the
two `+` occurrences of the doubled-offset example. -/
def c6SegB : List Char := ['0', '0', ':', '0', '0', ' ']

/-- The characters of `00:00`, the spurious second offset. -/
def c6SegC : List Char := ['0', '0', ':', '0', '0']

/-- A WD5 document in Boost regulation mode with `MaxSetpoint` 4000. -/
def c10Data : WD5Data :=
  { Id := 1
    SerialNumber := []
    SWversion := []
    GroupName := []
    GroupId := 2
    ThermostatName := []
    Online := true
    Heating := true
    RegulationMode := REGULATION_BOOST
    SensorAppl := 1
    AdaptiveMode := false
    OpenWindow := false
    LastPrimaryModeIsAuto := false
    DaylightSavingActive := false
    FloorTemperature := 2000
    RoomTemperature := 2200
    MinSetpoint := 500
    MaxSetpoint := 4000
    ComfortSetpoint := 2300
    ManualModeSetpoint := 2400
    FrostProtectionTemperature := 500
    BoostEndTime := 0
    ComfortEndTime := 0
    VacationEnabled := false
    VacationBeginDay := 0
    VacationEndDay := 0
    VacationTemperature := 1500
    TimeZone := 3600
    Schedule := ⟨[]⟩ }

/-!
## Theorems
-/

/-- C8: day-code normalization maps vendor code 0 to canonical 6
(Sunday), vendor code 1 to canonical 0 (Monday), and every vendor code
N ≥ 2 to canonical N - 1. -/
theorem normalizeDayCode_spec (n : Int) :
    normalizeDayCode 0 = 6 ∧ normalizeDayCode 1 = 0 ∧
      (2 ≤ n → normalizeDayCode n = n - 1) := by
  refine ⟨rfl, rfl, fun h => ?_⟩
  unfold normalizeDayCode
  rw [if_neg (by omega), if_neg (by omega)]

/-- Witness for C8 at the concrete vendor code 5 (canonical 4). -/
theorem normalizeDayCode_spec_witness :
    normalizeDayCode 0 = 6 ∧ normalizeDayCode 1 = 0 ∧ normalizeDayCode 5 = 4 := by
  obtain ⟨h0, h1, h5⟩ := normalizeDayCode_spec 5
  exact ⟨h0, h1, by rw [h5 (by decide)]; decide⟩

/-- The overwriting scan of `get_active_temperature`: folding the event
list while replacing the accumulator at every qualifying event computes
the temperature of the last qualifying event (or the initial value when
none qualifies). -/
theorem foldl_scan_eq_getLast_filter (now : Int) :
    ∀ (l : List ScheduleEvent) (init : Int),
      l.foldl (fun acc e => if e.date < now then e.temperature else acc) init
        = ((l.filter fun e => decide (e.date < now)).getLast?.map
            (fun e => e.temperature)).getD init := by
  intro l
  induction l with
  | nil => intro init; simp
  | cons e t ih =>
    intro init
    rw [List.foldl_cons, ih]
    by_cases h : e.date < now
    · rw [if_pos h, List.filter_cons_of_pos (by simpa using h)]
      cases hq : t.filter fun e => decide (e.date < now) with
      | nil => simp
      | cons b bs =>
        rw [List.getLast?_cons_cons]
        obtain ⟨a, ha⟩ : ∃ a, (b :: bs).getLast? = some a :=
          ⟨(b :: bs).getLast (by simp),
            List.getLast?_eq_getLast_of_ne_nil (by simp)⟩
        rw [ha]
        simp
    · rw [if_neg h, List.filter_cons_of_neg (by simpa using h)]

/-- C1 (amended): `get_active_temperature` scans the current canonical
day's event list in stored order and returns the temperature of the last
event whose timestamp is strictly earlier than `now` (a later qualifying
event overrides an earlier one), provided no stored temperature is the
unset sentinel 0; if no event of today's list qualifies it returns the
temperature of the last event in yesterday's list (day `d - 1`, day 0
wrapping to 6), under the precondition that yesterday's bucket is present
and non-empty. -/
theorem get_active_temperature_spec (s : Schedule) (now : Int)
    (todays prevs : List ScheduleEvent)
    (ht : dictGet s.days (pyWeekday now) = some todays)
    (hp : dictGet s.days
      (if pyWeekday now = 0 then 6 else pyWeekday now - 1) = some prevs)
    (hnz : ∀ e ∈ todays, e.temperature ≠ 0)
    (hne : prevs ≠ []) :
    s.get_active_temperature now
      = match (todays.filter fun e => decide (e.date < now)).getLast? with
        | some e => some e.temperature
        | none => prevs.getLast?.map fun e => e.temperature := by
  simp only [Schedule.get_active_temperature]
  rw [ht]
  simp only [foldl_scan_eq_getLast_filter]
  cases hq : (todays.filter fun e => decide (e.date < now)).getLast? with
  | some e =>
    have he : e ∈ todays :=
      List.mem_of_mem_filter (List.mem_of_mem_getLast? hq)
    simp only [Option.map_some', Option.getD_some]
    rw [if_pos (hnz e he)]
  | none =>
    simp only [Option.map_none', Option.getD_none, ne_eq, not_true_eq_false,
      if_false]
    rw [hp]
    obtain ⟨a, ha⟩ : ∃ a, prevs.getLast? = some a :=
      ⟨prevs.getLast hne, List.getLast?_eq_getLast_of_ne_nil hne⟩
    simp [ha]

/-- Counterexample to C1 as stated: at `now = 540000` (a Wednesday,
canonical day 2) the sole event of today's bucket has timestamp exactly
equal to `now`, so the claimed "last event whose timestamp is ≤ now"
would make the result 2500; the code's comparison is strict
(`now > event.date`), the event does not qualify, and yesterday's last
temperature 1000 is returned instead. -/
theorem get_active_temperature_counterexample :
    pyWeekday 540000 = 2
      ∧ dictGet c1Schedule.days 2 = some [⟨540000, 2500⟩]
      ∧ c1Schedule.get_active_temperature 540000 = some 1000
      ∧ c1Schedule.get_active_temperature 540000 ≠ some 2500 := by
  refine ⟨by decide, by decide, ?_, ?_⟩ <;> decide

/-- Witness for C1 (amended), at the spec's own example: Tuesday
(canonical 1) event 08:30 → 2500, Wednesday (canonical 2) event
08:30 → 2600, evaluated Wednesday 06:00; no Wednesday event is strictly
earlier than `now`, so Tuesday's last temperature 2500 is returned. -/
theorem get_active_temperature_spec_witness :
    Schedule.get_active_temperature
      ⟨[(1, [⟨462600, 2500⟩]), (2, [⟨549000, 2600⟩])]⟩ 540000 = some 2500 := by
  have h := get_active_temperature_spec
    ⟨[(1, [⟨462600, 2500⟩]), (2, [⟨549000, 2600⟩])]⟩ 540000
    [⟨549000, 2600⟩] [⟨462600, 2500⟩]
    (by decide) (by decide) (by decide) (by decide)
  rw [h]
  decide

/-- C5: the WD5 date parser behaves exactly as the claim describes —
for every naive input and integer offset it renders the offset as a
signed `HH:MM` suffix, parses the result as an offset-aware timestamp,
and corrects it by subtracting the offset when `offset ≥ 0` and adding
it otherwise. -/
theorem parse_wd5_date_spec (wall offset : Int) :
    parse_wd5_date wall offset = wd5DateClaim wall offset := by
  unfold parse_wd5_date wd5DateClaim strptimeWD5 gmtimeHM
  by_cases h : 0 ≤ offset <;> simp [h]

/-- Helper: when no branch of the Family-A target dispatch can raise,
`get_target_temperature` returning `none` pins the raising branch:
the set-point is unset, the mode is Schedule and a schedule is present. -/
theorem get_target_temperature_none (t : Thermostat) (now : Int)
    (h : t.get_target_temperature now = none) :
    t.set_point_temperature = none
      ∧ t.regulation_mode = REGULATION_SCHEDULE ∧ t.schedule.isSome := by
  unfold Thermostat.get_target_temperature at h
  cases hsp : t.set_point_temperature with
  | some v => rw [hsp] at h; exact absurd h (by simp)
  | none =>
    rw [hsp] at h
    by_cases h1 : t.regulation_mode = REGULATION_SCHEDULE ∧ t.schedule.isSome
    · exact ⟨rfl, h1.1, h1.2⟩
    · rw [if_neg h1] at h
      exfalso
      by_cases h2 : t.regulation_mode = REGULATION_COMFORT
      · rw [if_pos h2] at h; simp at h
      · rw [if_neg h2] at h
        by_cases h3 : t.regulation_mode = REGULATION_MANUAL
        · rw [if_pos h3] at h; simp at h
        · rw [if_neg h3] at h
          by_cases h4 : t.regulation_mode = REGULATION_VACATION
          · rw [if_pos h4] at h; simp at h
          · rw [if_neg h4] at h
            by_cases h5 : t.regulation_mode = REGULATION_FROST_PROTECTION
            · rw [if_pos h5] at h; simp at h
            · rw [if_neg h5] at h
              by_cases h6 : t.regulation_mode = REGULATION_BOOST
              · rw [if_pos h6] at h; simp at h
              · rw [if_neg h6] at h
                by_cases h7 : t.regulation_mode = REGULATION_ECO
                      ∧ t.schedule.isSome
                · rw [if_pos h7] at h
                  obtain ⟨doc, hdoc⟩ := Option.isSome_iff_exists.mp h7.2
                  rw [hdoc] at h
                  simp at h
                · rw [if_neg h7] at h; simp at h

/-- Counterexample to C2 as stated: `get_target_temperature` can raise.
For a Family-A thermostat in Schedule regulation mode whose (truthy)
schedule document has no day buckets, the schedule evaluation raises a
`KeyError` (modelled by `none`), so the function does not return a
value. -/
theorem get_target_temperature_raises :
    c2Thermostat.get_target_temperature 0 = none := by decide

/-- C2 (amended): `get_current_temperature` never raises, and both
accessors follow the dispatch rules — a populated unified
set-point/temperature field is returned directly; otherwise Family A
dispatches on regulation mode (Comfort/Manual/Vacation/FrostProtection/
Boost → the matching stored setpoint with unset treated as 0, Schedule →
the embedded schedule's active temperature, Eco → the embedded schedule's
lowest temperature, anything else → 0) and on sensor mode (Room → room,
Floor → floor, Room+Floor → ceiling of the average, anything else → 0);
`get_target_temperature` raises only in Schedule mode with a populated
schedule whose evaluation raises. -/
theorem get_temperature_dispatch (t : Thermostat) (now : Int) :
    (∀ v, t.set_point_temperature = some v
        → t.get_target_temperature now = some v)
    ∧ (t.set_point_temperature = none →
        (t.regulation_mode = REGULATION_COMFORT
            → t.get_target_temperature now = some t.comfort_temperature)
        ∧ (t.regulation_mode = REGULATION_MANUAL
            → t.get_target_temperature now = some t.manual_temperature)
        ∧ (t.regulation_mode = REGULATION_VACATION
            → t.get_target_temperature now = some (pyOr t.vacation_temperature 0))
        ∧ (t.regulation_mode = REGULATION_FROST_PROTECTION
            → t.get_target_temperature now
                = some (pyOr t.frost_protection_temperature 0))
        ∧ (t.regulation_mode = REGULATION_BOOST
            → t.get_target_temperature now = some (pyOr t.boost_temperature 0))
        ∧ (∀ doc, t.schedule = some doc
            → t.regulation_mode = REGULATION_SCHEDULE
            → t.get_target_temperature now
                = (Schedule.from_json doc now).get_active_temperature now)
        ∧ (∀ doc, t.schedule = some doc
            → t.regulation_mode = REGULATION_ECO
            → t.get_target_temperature now
                = some (Schedule.from_json doc now).get_lowest_temperature)
        ∧ (t.regulation_mode ≠ REGULATION_SCHEDULE
            → t.regulation_mode ≠ REGULATION_COMFORT
            → t.regulation_mode ≠ REGULATION_MANUAL
            → t.regulation_mode ≠ REGULATION_VACATION
            → t.regulation_mode ≠ REGULATION_FROST_PROTECTION
            → t.regulation_mode ≠ REGULATION_BOOST
            → t.regulation_mode ≠ REGULATION_ECO
            → t.get_target_temperature now = some 0)
        ∧ (t.schedule = none
            → t.regulation_mode = REGULATION_SCHEDULE
              ∨ t.regulation_mode = REGULATION_ECO
            → t.get_target_temperature now = some 0))
    ∧ (∀ v, t.temperature = some v → t.get_current_temperature = v)
    ∧ (t.temperature = none →
        (t.sensor_mode = some SENSOR_ROOM
            → t.get_current_temperature = pyOr t.temperature_room 0)
        ∧ (t.sensor_mode = some SENSOR_FLOOR
            → t.get_current_temperature = pyOr t.temperature_floor 0)
        ∧ (t.sensor_mode = some SENSOR_ROOM_FLOOR
            → t.get_current_temperature
                = pyCeilHalf (pyOr t.temperature_floor 0
                    + pyOr t.temperature_room 0))
        ∧ (t.sensor_mode ≠ some SENSOR_ROOM
            → t.sensor_mode ≠ some SENSOR_FLOOR
            → t.sensor_mode ≠ some SENSOR_ROOM_FLOOR
            → t.get_current_temperature = 0))
    ∧ (t.get_target_temperature now = none
        → t.set_point_temperature = none
          ∧ t.regulation_mode = REGULATION_SCHEDULE ∧ t.schedule.isSome) := by
  refine ⟨?_, ?_, ?_, ?_, get_target_temperature_none t now⟩
  · intro v hv
    simp [Thermostat.get_target_temperature, hv]
  · intro hsp
    refine ⟨?_, ?_, ?_, ?_, ?_, ?_, ?_, ?_, ?_⟩
    · intro hm
      simp [Thermostat.get_target_temperature, hsp, hm, REGULATION_SCHEDULE,
        REGULATION_COMFORT]
    · intro hm
      simp [Thermostat.get_target_temperature, hsp, hm, REGULATION_SCHEDULE,
        REGULATION_COMFORT, REGULATION_MANUAL]
    · intro hm
      simp [Thermostat.get_target_temperature, hsp, hm, REGULATION_SCHEDULE,
        REGULATION_COMFORT, REGULATION_MANUAL, REGULATION_VACATION]
    · intro hm
      simp [Thermostat.get_target_temperature, hsp, hm, REGULATION_SCHEDULE,
        REGULATION_COMFORT, REGULATION_MANUAL, REGULATION_VACATION,
        REGULATION_FROST_PROTECTION]
    · intro hm
      simp [Thermostat.get_target_temperature, hsp, hm, REGULATION_SCHEDULE,
        REGULATION_COMFORT, REGULATION_MANUAL, REGULATION_VACATION,
        REGULATION_FROST_PROTECTION, REGULATION_BOOST]
    · intro doc hdoc hm
      simp [Thermostat.get_target_temperature, hsp, hm, hdoc,
        REGULATION_SCHEDULE]
    · intro doc hdoc hm
      simp [Thermostat.get_target_temperature, hsp, hm, hdoc,
        REGULATION_SCHEDULE, REGULATION_COMFORT, REGULATION_MANUAL,
        REGULATION_VACATION, REGULATION_FROST_PROTECTION, REGULATION_BOOST,
        REGULATION_ECO]
    · intro h1 h2 h3 h4 h5 h6 h7
      simp [Thermostat.get_target_temperature, hsp, h1, h2, h3, h4, h5, h6, h7]
    · intro hsch hm
      rcases hm with hm | hm <;>
        simp [Thermostat.get_target_temperature, hsp, hsch, hm,
          REGULATION_SCHEDULE, REGULATION_COMFORT, REGULATION_MANUAL,
          REGULATION_VACATION, REGULATION_FROST_PROTECTION, REGULATION_BOOST,
          REGULATION_ECO]
  · intro v hv
    simp [Thermostat.get_current_temperature, hv]
  · intro ht
    refine ⟨?_, ?_, ?_, ?_⟩
    · intro hs
      simp [Thermostat.get_current_temperature, ht, hs, SENSOR_ROOM,
        SENSOR_FLOOR, SENSOR_ROOM_FLOOR]
    · intro hs
      simp [Thermostat.get_current_temperature, ht, hs, SENSOR_ROOM,
        SENSOR_FLOOR, SENSOR_ROOM_FLOOR]
    · intro hs
      simp [Thermostat.get_current_temperature, ht, hs, SENSOR_ROOM,
        SENSOR_FLOOR, SENSOR_ROOM_FLOOR]
    · intro h1 h2 h3
      simp [Thermostat.get_current_temperature, ht, h1, h2, h3]

/-- Witness for C2 (amended): a device with set-point 2250 and a
room+floor sensor pair (2000, 3000) yields target 2250 and current
temperature 2500. -/
theorem get_temperature_dispatch_witness :
    c2WitnessThermostat.get_target_temperature 0 = some 2250
      ∧ c2WitnessThermostat.get_current_temperature = 2500 := by
  obtain ⟨h1, _, _, h4, _⟩ := get_temperature_dispatch c2WitnessThermostat 0
  refine ⟨h1 2250 rfl, ?_⟩
  have h5 := (h4 rfl).2.2.1 rfl
  rw [h5]
  decide

/-- C3: every outbound request decrements the session call counter
before the call is sent; from the initial state, a login failing with
the vendor auth error code leaves the counter at -1 with the session
still cleared (no token), and a successful login sets the counter to the
fixed budget 300 and the token to the returned `SessionId`. -/
theorem login_session_counter (resp : LoginResponse) :
    (∀ st : OJState, (requestSend st).calls_left = st.calls_left - 1)
    ∧ (resp.ErrorCode = 1 →
        OJMicroline.login initOJState resp = (true, ⟨none, -1⟩))
    ∧ (resp.ErrorCode ≠ 1 →
        OJMicroline.login initOJState resp
          = (false, ⟨some resp.SessionId, 300⟩)) := by
  refine ⟨fun st => rfl, ?_, ?_⟩ <;> intro h <;>
    simp [OJMicroline.login, initOJState, requestSend, h]

/-- Witness for C3 with a failing (`ErrorCode = 1`) and a succeeding
login reply. -/
theorem login_session_counter_witness :
    OJMicroline.login initOJState ⟨1, ['s']⟩ = (true, ⟨none, -1⟩)
      ∧ OJMicroline.login initOJState ⟨0, ['s']⟩
          = (false, ⟨some ['s'], 300⟩) :=
  ⟨(login_session_counter ⟨1, ['s']⟩).2.1 rfl,
   (login_session_counter ⟨0, ['s']⟩).2.2 (by decide)⟩

/-- Counterexample to C4 as stated: with a session token present but the
remaining-call counter already at 0, `set_regulation_mode` performs no
login (final component `false`) and sends the update request with the
stale token and a counter of -1, instead of re-authenticating. -/
theorem ensure_login_counterexample :
    OJMicroline.set_regulation_mode ⟨some ['t'], 0⟩ ⟨0, ['s']⟩
      = some (⟨some ['t'], -1⟩, ⟨some ['t'], -1⟩, false) := by
  decide

/-- C4 (amended): `get_thermostats` always calls `login`, which
re-authenticates exactly when the counter is 0 or no token exists and is
a no-op otherwise; `set_regulation_mode` calls `login` only when no
session token exists, so with an existing token it sends the request
without re-authenticating regardless of the counter. -/
theorem ensure_login_spec (st : OJState) (resp : LoginResponse)
    (h : resp.ErrorCode ≠ 1) :
    ((st.calls_left = 0 ∨ st.session_id = none) →
        OJMicroline.get_thermostats st resp
          = some (⟨some resp.SessionId, 299⟩, ⟨some resp.SessionId, 299⟩))
    ∧ (¬(st.calls_left = 0 ∨ st.session_id = none) →
        OJMicroline.get_thermostats st resp
          = some (⟨st.session_id, st.calls_left - 1⟩,
              ⟨st.session_id, st.calls_left - 1⟩))
    ∧ (st.session_id = none →
        OJMicroline.set_regulation_mode st resp
          = some (⟨some resp.SessionId, 299⟩,
              ⟨some resp.SessionId, 299⟩, true))
    ∧ (∀ tok, st.session_id = some tok →
        OJMicroline.set_regulation_mode st resp
          = some (⟨some tok, st.calls_left - 1⟩,
              ⟨some tok, st.calls_left - 1⟩, false))
    ∧ (¬(st.calls_left = 0 ∨ st.session_id = none) →
        OJMicroline.login st resp = (false, st)) := by
  refine ⟨?_, ?_, ?_, ?_, ?_⟩
  · intro hg
    simp [OJMicroline.get_thermostats, OJMicroline.login, hg, h, requestSend]
  · intro hg
    simp [OJMicroline.get_thermostats, OJMicroline.login, hg, requestSend]
  · intro hs
    simp [OJMicroline.set_regulation_mode, OJMicroline.login, hs, h,
      requestSend]
  · intro tok hs
    simp [OJMicroline.set_regulation_mode, hs, requestSend]
  · intro hg
    simp [OJMicroline.login, hg]

/-- Witness for C4 (amended): a fresh client re-authenticates on
`get_thermostats`; a client holding a token with 5 calls left issues an
update without logging in. -/
theorem ensure_login_spec_witness :
    OJMicroline.get_thermostats ⟨none, 0⟩ ⟨0, ['s']⟩
        = some (⟨some ['s'], 299⟩, ⟨some ['s'], 299⟩)
      ∧ OJMicroline.set_regulation_mode ⟨some ['t'], 5⟩ ⟨0, ['s']⟩
          = some (⟨some ['t'], 4⟩, ⟨some ['t'], 4⟩, false) := by
  constructor
  · exact (ensure_login_spec ⟨none, 0⟩ ⟨0, ['s']⟩ (by decide)).1 (Or.inl rfl)
  · have h := (ensure_login_spec ⟨some ['t'], 5⟩ ⟨0, ['s']⟩
      (by decide)).2.2.2.1 ['t'] rfl
    simpa using h

/-- C9: mutual exclusion of the two vendor families' fields.  A
WD5-parsed device has the floor/room sensor pair, sensor mode, schedule,
boost data and the other WD5-only fields populated while the unified
temperature/set-point pair stays unset; a WG4-parsed device has the
unified pair populated while every WD5-only field (thermostat id,
schedule, adaptive/open-window/daylight flags, sensor mode, floor/room
sensors, boost end time, frost and boost setpoints) stays unset.
Exactly one of the two groups is populated, never both, never neither,
and no field of the other family is defaulted to a nonzero value. -/
theorem parse_mutual_exclusion (d : WD5Data) (g : WG4Data)
    (localOffset : Int) :
    ((Thermostat.from_wd5_json d).temperature = none
      ∧ (Thermostat.from_wd5_json d).set_point_temperature = none
      ∧ (Thermostat.from_wd5_json d).sensor_mode = some d.SensorAppl
      ∧ (Thermostat.from_wd5_json d).temperature_floor
          = some d.FloorTemperature
      ∧ (Thermostat.from_wd5_json d).temperature_room
          = some d.RoomTemperature
      ∧ (Thermostat.from_wd5_json d).thermostat_id = some d.Id
      ∧ (Thermostat.from_wd5_json d).schedule = some d.Schedule
      ∧ (Thermostat.from_wd5_json d).adaptive_mode = some d.AdaptiveMode
      ∧ (Thermostat.from_wd5_json d).open_window_detection
          = some d.OpenWindow
      ∧ (Thermostat.from_wd5_json d).daylight_saving_active
          = some d.DaylightSavingActive
      ∧ (Thermostat.from_wd5_json d).boost_end_time
          = some (parse_wd5_date d.BoostEndTime d.TimeZone)
      ∧ (Thermostat.from_wd5_json d).vacation_mode = some d.VacationEnabled
      ∧ (Thermostat.from_wd5_json d).vacation_begin_time
          = some (parse_wd5_date d.VacationBeginDay d.TimeZone)
      ∧ (Thermostat.from_wd5_json d).vacation_end_time
          = some (parse_wd5_date d.VacationEndDay d.TimeZone)
      ∧ (Thermostat.from_wd5_json d).vacation_temperature
          = some d.VacationTemperature
      ∧ (Thermostat.from_wd5_json d).frost_protection_temperature
          = some d.FrostProtectionTemperature
      ∧ (Thermostat.from_wd5_json d).boost_temperature
          = some d.MaxSetpoint)
    ∧ (Thermostat.from_wg4_json localOffset g).elim True (fun t =>
        t.temperature = some g.Temperature
        ∧ t.set_point_temperature = some g.SetPointTemp
        ∧ t.thermostat_id = none
        ∧ t.schedule = none
        ∧ t.adaptive_mode = none
        ∧ t.open_window_detection = none
        ∧ t.daylight_saving_active = none
        ∧ t.sensor_mode = none
        ∧ t.temperature_floor = none
        ∧ t.temperature_room = none
        ∧ t.boost_end_time = none
        ∧ t.frost_protection_temperature = none
        ∧ t.boost_temperature = none) := by
  constructor
  · exact ⟨rfl, rfl, rfl, rfl, rfl, rfl, rfl, rfl, rfl, rfl, rfl, rfl, rfl,
      rfl, rfl, rfl, rfl⟩
  · cases hc : parse_wg4_date localOffset g.ComfortEndTime with
    | none => simp [Thermostat.from_wg4_json, hc]
    | some ce =>
      cases hb : parse_wg4_date localOffset
          (g.VacationBeginDay ++ ' ' :: g.TZOffset) with
      | none => simp [Thermostat.from_wg4_json, hc, hb]
      | some vb =>
        cases he : parse_wg4_date localOffset
            (g.VacationEndDay ++ ' ' :: g.TZOffset) with
        | none => simp [Thermostat.from_wg4_json, hc, hb, he]
        | some ve => simp [Thermostat.from_wg4_json, hc, hb, he]

/-- Helper: Python `v or 0` is `v` for any integer `v`. -/
theorem pyOr_some_zero (v : Int) : pyOr (some v) 0 = v := by
  unfold pyOr
  by_cases h : v = 0 <;> simp [h]

/-- C10: a WD5-parsed device's boost setpoint is the document's
`MaxSetpoint` (there is no vendor boost field), which is also the
device's `max_temperature`; consequently in Boost regulation mode
`get_target_temperature` returns the device's `max_temperature`. -/
theorem wd5_boost_setpoint (d : WD5Data) (now : Int) :
    (Thermostat.from_wd5_json d).boost_temperature = some d.MaxSetpoint
    ∧ (Thermostat.from_wd5_json d).max_temperature = d.MaxSetpoint
    ∧ (d.RegulationMode = REGULATION_BOOST →
        (Thermostat.from_wd5_json d).get_target_temperature now
          = some (Thermostat.from_wd5_json d).max_temperature) := by
  refine ⟨rfl, rfl, fun hm => ?_⟩
  simp [Thermostat.get_target_temperature, Thermostat.from_wd5_json, hm,
    REGULATION_SCHEDULE, REGULATION_COMFORT, REGULATION_MANUAL,
    REGULATION_VACATION, REGULATION_FROST_PROTECTION, REGULATION_BOOST,
    pyOr_some_zero]

/-- Witness for C10: the concrete Boost-mode WD5 document with
`MaxSetpoint` 4000 yields target temperature 4000. -/
theorem wd5_boost_setpoint_witness :
    (Thermostat.from_wd5_json c10Data).get_target_temperature 0
      = some 4000 := by
  have h := (wd5_boost_setpoint c10Data 0).2.2 rfl
  rw [h]
  decide

/-- Helper: `pySplit` never returns an empty list of segments. -/
theorem pySplit_ne_nil (sep : Char) (l : List Char) : pySplit sep l ≠ [] := by
  induction l with
  | nil => simp [pySplit]
  | cons c t ih =>
    simp only [pySplit]
    by_cases h : c = sep
    · simp [h]
    · rw [if_neg h]
      cases hq : pySplit sep t with
      | nil => simp
      | cons hh r => simp

/-- Helper: splitting a string that does not contain the separator
yields the single segment. -/
theorem pySplit_no_sep (sep : Char) (l : List Char) (h : sep ∉ l) :
    pySplit sep l = [l] := by
  induction l with
  | nil => rfl
  | cons c t ih =>
    simp only [List.mem_cons, not_or] at h
    obtain ⟨h1, h2⟩ := h
    simp only [pySplit]
    rw [if_neg (fun e => h1 e.symm), ih h2]

/-- Helper: splitting at the first separator occurrence peels off the
separator-free prefix as the first segment. -/
theorem pySplit_append (sep : Char) (a r : List Char) (h : sep ∉ a) :
    pySplit sep (a ++ sep :: r) = a :: pySplit sep r := by
  induction a with
  | nil => simp [pySplit]
  | cons c t ih =>
    simp only [List.mem_cons, not_or] at h
    obtain ⟨h1, h2⟩ := h
    simp only [List.cons_append, pySplit]
    rw [if_neg (fun e => h1 e.symm)]
    simp only [List.append_eq]
    rw [ih h2]

/-- Helper: the `"+".join(value.split("+")[:2]).strip()` surgery keeps
exactly the first two `+`-segments, so a spurious second offset suffix
is dropped. -/
theorem wg4Fix_drops_extra (a b c : List Char)
    (ha : '+' ∉ a) (hb : '+' ∉ b) :
    wg4Fix (a ++ '+' :: (b ++ '+' :: c)) = wg4Fix (a ++ '+' :: b) := by
  unfold wg4Fix
  rw [pySplit_append '+' a (b ++ '+' :: c) ha, pySplit_append '+' b c hb,
    pySplit_append '+' a b ha, pySplit_no_sep '+' b hb]
  rfl

/-- C6: the WG4 date parser splits on `+`, keeps only the first two
segments rejoined with `+` (so a doubled offset suffix parses the same
as a single one), trims whitespace, parses with the family's fixed
format and converts to the local zone; and the WG4 device parser appends
the caller-supplied zone offset string to the vacation begin/end fields
before parsing, unlike the comfort-end field of that family, which is
parsed as-is. -/
theorem parse_wg4_quirks (localOffset : Int) (a b c : List Char)
    (ha : '+' ∉ a) (hb : '+' ∉ b) :
    parse_wg4_date localOffset (a ++ '+' :: (b ++ '+' :: c))
        = parse_wg4_date localOffset (a ++ '+' :: b)
      ∧ (∀ (g : WG4Data) (t : Thermostat),
          Thermostat.from_wg4_json localOffset g = some t →
          t.vacation_begin_time
              = parse_wg4_date localOffset
                  (g.VacationBeginDay ++ ' ' :: g.TZOffset)
            ∧ t.vacation_end_time
              = parse_wg4_date localOffset
                  (g.VacationEndDay ++ ' ' :: g.TZOffset)
            ∧ some t.comfort_end_time
              = parse_wg4_date localOffset g.ComfortEndTime) := by
  constructor
  · unfold parse_wg4_date
    rw [wg4Fix_drops_extra a b c ha hb]
  · intro g t h
    cases hc : parse_wg4_date localOffset g.ComfortEndTime with
    | none => simp [Thermostat.from_wg4_json, hc] at h
    | some ce =>
      cases hbg : parse_wg4_date localOffset
          (g.VacationBeginDay ++ ' ' :: g.TZOffset) with
      | none => simp [Thermostat.from_wg4_json, hc, hbg] at h
      | some vb =>
        cases he : parse_wg4_date localOffset
            (g.VacationEndDay ++ ' ' :: g.TZOffset) with
        | none => simp [Thermostat.from_wg4_json, hc, hbg, he] at h
        | some ve =>
          simp only [Thermostat.from_wg4_json, hc, hbg, he,
            Option.bind_eq_bind, Option.some_bind, Option.pure_def,
            Option.some_inj] at h
          subst h
          exact ⟨rfl, rfl, rfl⟩

/-- Witness for C6: the vendor's observed corrupt date
`28/01/2024 23:29:00 +00:00 +00:00` parses the same as its single-offset
form, namely to the UTC instant 1706484540 re-labelled with the local
offset 0. -/
theorem parse_wg4_quirks_witness :
    parse_wg4_date 0 (c6SegA ++ '+' :: (c6SegB ++ '+' :: c6SegC))
        = parse_wg4_date 0 (c6SegA ++ '+' :: c6SegB)
      ∧ parse_wg4_date 0 (c6SegA ++ '+' :: c6SegB)
        = some ⟨1706484540, 0⟩ := by
  constructor
  · exact (parse_wg4_quirks 0 c6SegA c6SegB c6SegC (by decide) (by decide)).1
  · decide

/-- Counterexample to C7 as stated: the comfort setpoint uses Python
`or`-truthiness, so a caller-supplied temperature of 0 is treated as
absent and the stored comfort setpoint (2100) is emitted instead of the
supplied value. -/
theorem update_body_counterexample :
    (WD5API.update_regulation_mode_body c7Thermostat REGULATION_COMFORT
        (some 0) 240 5000 0).ComfortSetpoint = 2100 := by
  decide

/-- C7 (amended): the WD5 update-body builder changes only the fields
implied by the target mode — for Comfort it sets the comfort end time to
now + duration minutes and uses the caller-supplied temperature if
provided and nonzero (Python truthiness: a supplied 0 falls back to the
stored setpoint), for Boost it sets the boost end time to now + 1 hour —
while the vacation dates, vacation temperature, vacation flag, schedule
and the untargeted setpoints/end times are carried over unchanged from
the device; every date field is serialized with the family's fixed
timestamp format and a null date serializes to the explicit null marker,
never an empty string or an omitted field. -/
theorem update_body_spec (t : Thermostat) (mode : Int)
    (temperature : Option Int) (duration now localOffset : Int)
    (body : SetGroupBody)
    (hbody : body = WD5API.update_regulation_mode_body t mode temperature
        duration now localOffset) :
    body.VacationBeginDay = wd5Fmt t.vacation_begin_time
    ∧ body.VacationEndDay = wd5Fmt t.vacation_end_time
    ∧ body.VacationTemperature = t.vacation_temperature
    ∧ body.VacationEnabled = t.vacation_mode
    ∧ body.Schedule = t.schedule
    ∧ body.RegulationMode = mode
    ∧ (mode = REGULATION_COMFORT →
        body.ComfortEndTime = some (now + 60 * duration + localOffset)
        ∧ body.BoostEndTime = wd5Fmt t.boost_end_time
        ∧ (temperature = none → body.ComfortSetpoint = t.comfort_temperature)
        ∧ (∀ v, temperature = some v → v ≠ 0 → body.ComfortSetpoint = v)
        ∧ (temperature = some 0 → body.ComfortSetpoint = t.comfort_temperature)
        ∧ body.ManualModeSetpoint = t.manual_temperature)
    ∧ (mode = REGULATION_BOOST →
        body.BoostEndTime = some (now + 3600 + localOffset)
        ∧ body.ComfortEndTime = some t.comfort_end_time.wall
        ∧ body.ComfortSetpoint = t.comfort_temperature
        ∧ body.ManualModeSetpoint = t.manual_temperature)
    ∧ (mode ≠ REGULATION_COMFORT → mode ≠ REGULATION_BOOST →
        mode ≠ REGULATION_MANUAL →
        body.ComfortEndTime = some t.comfort_end_time.wall
        ∧ body.BoostEndTime = wd5Fmt t.boost_end_time
        ∧ body.ComfortSetpoint = t.comfort_temperature
        ∧ body.ManualModeSetpoint = t.manual_temperature)
    ∧ wd5Fmt none = none
    ∧ (∀ dt : AwareDateTime, wd5Fmt (some dt) = some dt.wall) := by
  subst hbody
  refine ⟨rfl, rfl, rfl, rfl, rfl, rfl, ?_, ?_, ?_, rfl, fun dt => rfl⟩
  · intro hm
    refine ⟨?_, ?_, ?_, ?_, ?_, ?_⟩
    · simp [WD5API.update_regulation_mode_body, hm, wd5Fmt,
        AwareDateTime.wall]
    · simp [WD5API.update_regulation_mode_body, hm, REGULATION_COMFORT,
        REGULATION_BOOST]
    · intro hT
      simp [WD5API.update_regulation_mode_body, hm, hT, pyOr]
    · intro v hT hv
      simp [WD5API.update_regulation_mode_body, hm, hT, pyOr, hv]
    · intro hT
      simp [WD5API.update_regulation_mode_body, hm, hT, pyOr]
    · simp [WD5API.update_regulation_mode_body, hm, REGULATION_COMFORT,
        REGULATION_MANUAL]
  · intro hm
    refine ⟨?_, ?_, ?_, ?_⟩
    · simp [WD5API.update_regulation_mode_body, hm, REGULATION_BOOST,
        wd5Fmt, AwareDateTime.wall]
    · simp [WD5API.update_regulation_mode_body, hm, REGULATION_COMFORT,
        REGULATION_BOOST, wd5Fmt]
    · simp [WD5API.update_regulation_mode_body, hm, REGULATION_COMFORT,
        REGULATION_BOOST]
    · simp [WD5API.update_regulation_mode_body, hm, REGULATION_COMFORT,
        REGULATION_MANUAL, REGULATION_BOOST]
  · intro h1 h2 h3
    refine ⟨?_, ?_, ?_, ?_⟩ <;>
      simp [WD5API.update_regulation_mode_body, h1, h2, h3, wd5Fmt]

/-- Witness for C7 (amended): building the Comfort body with no explicit
temperature on a fully-populated device keeps the stored comfort
setpoint 2100, advances the comfort end time to now + 240 minutes
(wall 19400), and leaves the boost end time (wall 5600) and vacation
dates (walls 6600 and 7600) untouched. -/
theorem update_body_spec_witness :
    (WD5API.update_regulation_mode_body c7Thermostat REGULATION_COMFORT
        none 240 5000 0).ComfortSetpoint = 2100
    ∧ (WD5API.update_regulation_mode_body c7Thermostat REGULATION_COMFORT
        none 240 5000 0).ComfortEndTime = some 19400
    ∧ (WD5API.update_regulation_mode_body c7Thermostat REGULATION_COMFORT
        none 240 5000 0).BoostEndTime = some 5600
    ∧ (WD5API.update_regulation_mode_body c7Thermostat REGULATION_COMFORT
        none 240 5000 0).VacationBeginDay = some 6600
    ∧ (WD5API.update_regulation_mode_body c7Thermostat REGULATION_COMFORT
        none 240 5000 0).VacationEndDay = some 7600 := by
  obtain ⟨hvb, hve, -, -, -, -, hc, -⟩ := update_body_spec c7Thermostat
    REGULATION_COMFORT none 240 5000 0 _ rfl
  obtain ⟨hce, hbe, hcs, -⟩ := hc rfl
  refine ⟨?_, ?_, ?_, ?_, ?_⟩
  · rw [hcs rfl]; decide
  · rw [hce]; decide
  · rw [hbe]; decide
  · rw [hvb]; decide
  · rw [hve]; decide
